import Mathlib

/-!
Verification of the MPIPE link-layer state machine from
`src/otplatform/cc430/mpipe_CC430_i2c.c` (OpenTag, CC430 I2C variant).

Modelling conventions:
* Byte memory is a flat map `Mem : Nat → Nat`; a C `ot_u8*` is a base
  address (`Nat`).  `Mem.write` stores the value mod 256 and `Mem.read`
  reads mod 256, matching `ot_u8` truncation.
* The configuration modelled is the one the specification describes:
  `PLATFORM_FEATURE_USBCONVERTER != ENABLED` and
  `OT_FEATURE(MPIPE_CALLBACKS) == ENABLED`.
* The global `mpipe_struct mpipe` is `MpipeStruct`.  Its 10-byte `ackbuf`
  field lives in memory at the fixed address `ackbuf_addr` (the struct is a
  C global at a linker-chosen address), so `mpipe_txndef(mpipe.ackbuf, …)`
  is a call with that address, exactly as in the C.
* `ot_int` quantities (`pktlen`, `data_length`) are `Nat`: in every modelled
  flow they are sums of byte values and small constants, hence non-negative
  and far below 2^15.  The return value of `mpipe_txndef`/`mpipe_rxndef` is
  `Int` so that the error code -1 is represented exactly.
* The CRC collaborator (`platform_crc_block`) is external and unspecified;
  every definition and theorem is parametric in a function
  `crc : List Nat → Nat`, truncated to `ot_u16`.
* Device-register writes (DMA control, UART open/close, interrupt enables,
  signal callbacks firing) are recorded as an ordered `HwEvent` trace; the
  claims about "arming a bulk send/receive" are statements about this trace.
* `Twobytes` access: `sequence.ubyte[UPPER]` is the high byte
  (`sequence / 256`) and `sequence.ubyte[LOWER]` the low byte
  (`sequence % 256`) of the 16-bit `ushort` view.
-/

/-- Byte-addressed memory.  C buffers are regions of this map. -/
def Mem : Type := Nat → Nat

/-- Read one byte (`ot_u8` load). -/
def Mem.read (m : Mem) (a : Nat) : Nat := m a % 256

/-- Store one byte (`ot_u8` store truncates to 8 bits). -/
def Mem.write (m : Mem) (a v : Nat) : Mem := fun x => if x = a then v % 256 else m x

/-- Read `n` consecutive bytes starting at `a`. -/
def readBytes (m : Mem) (a : Nat) : Nat → List Nat
  | 0 => []
  | n + 1 => m.read a :: readBytes m (a + 1) n

/-- External checksum collaborator `platform_crc_block(data, length)`:
its result is an `ot_u16`, and the contract is only that it is a
deterministic function of the bytes; zero denotes a verified block. -/
def platform_crc_block (crc : List Nat → Nat) (m : Mem) (a n : Nat) : Nat :=
  crc (readBytes m a n) % 65536

/-- The `mpipe_state` protocol phases (values of the `mpipe.state` field). -/
inductive MpipeState where
  | Idle
  | RxHeader
  | RxPayload
  | TxAckWait
  | TxAckDone
  | TxWait
  | TxDone
  | RxAck
deriving DecidableEq

/-- The `mpipe_priority` kinds: `MPIPE_Low`, `MPIPE_High`, `MPIPE_Broadcast`,
`MPIPE_Ack`.  `Low`/`High`/`Broadcast` are data kinds; `Ack` marks the
internally issued acknowledgment transfers. -/
inductive MpipePriority where
  | Low
  | High
  | Broadcast
  | Ack
deriving DecidableEq

/-- A callback slot: either the no-op `sub_signull` installed by
`mpipe_init`, or an owner-supplied handler. -/
inductive SigHandler where
  | signull
  | custom (id : Nat)
deriving DecidableEq

/-- Hardware / collaborator actions the driver performs, recorded in order.
`dmaRxConfig dest size` is `MPIPE_DMA_RXCONFIG(dest, size, ON)`;
`dmaTxConfig src size` is `MPIPE_DMA_TXCONFIG(src, size, ON)`;
`setIE v` is `MPIPE_I2C->IE = v` (1 for `UCTXIE`, 0 to disable). -/
inductive HwEvent where
  | dmaOff
  | dmaRxConfig (dest size : Nat)
  | dmaTxConfig (src size : Nat)
  | uartOpen
  | uartClose
  | txTrigger
  | i2cOpen
  | i2cClearRxifg
  | setIE (v : Nat)
  | sigRxdone (v : Int)
  | sigTxdone (v : Int)
  | sigRxdetect (v : Int)
deriving DecidableEq

/-- The global `mpipe_struct mpipe` (USB-converter variant disabled,
callbacks enabled).  `ackbuf_addr` is the address of the embedded 10-byte
`ackbuf[10]` array; `pktbuf` is the `ot_u8*` pointer; `sequence` is the
`Twobytes` counter viewed as its 16-bit `ushort`. -/
structure MpipeStruct where
  ackbuf_addr : Nat
  priority : MpipePriority
  state : MpipeState
  sequence : Nat
  pktbuf : Nat
  pktlen : Nat
  sig_rxdone : SigHandler
  sig_txdone : SigHandler
  sig_rxdetect : SigHandler
deriving DecidableEq

/-- Result of `mpipe_txndef` / `mpipe_rxndef`: the `ot_int` return code,
the updated session, the updated memory, and the hardware actions taken. -/
structure OpResult where
  ret : Int
  mp : MpipeStruct
  mem : Mem
  ev : List HwEvent

/-- Result of an interrupt-service dispatch (no return code). -/
structure IsrOut where
  mp : MpipeStruct
  mem : Mem
  ev : List HwEvent

/-- `mpipe_init(port_id)`: installs the no-op signal callbacks, sets
`priority = MPIPE_Low` and `state = MPIPE_Idle`.  The line
`mpipe.sequence.ushort = 0` is commented out in the source ("not actually
necessary"): the global is zero-initialized by C static initialization, so
`mpipe_init` itself leaves `sequence` untouched.  Port and register setup
is device programming, out of scope. -/
def mpipe_init (s : MpipeStruct) : MpipeStruct :=
  { s with
    sig_rxdone := .signull
    sig_txdone := .signull
    sig_rxdetect := .signull
    priority := .Low
    state := .Idle }

/-- `mpipe_txndef(data, blocking, data_priority)`: for a non-`Ack` kind,
rejects with -1 while `mpipe.state != MPIPE_Idle`, else records
`priority`/`pktbuf`/`pktlen`; then (always) sets `state = MPIPE_Tx_Wait`,
disables the DMA, appends the footer — sequence high byte, sequence low
byte, then the CRC over `data[0 .. data_length+2)` high byte, low byte —
arms the DMA send of `data_length + 4` bytes, opens the UART and triggers.
`blocking` only spins in `mpipe_wait()` afterwards, mutating nothing, so it
does not affect the result.  DMA trigger-select register writes
(`DMA->CTL0` / `DMA->CTL4`) are device programming, not recorded. -/
def mpipe_txndef (crc : List Nat → Nat) (data : Nat) (blocking : Bool)
    (data_priority : MpipePriority) (s : MpipeStruct) (m : Mem) : OpResult :=
  let data_length : Nat := m.read (data + 2) + 6
  if data_priority ≠ .Ack ∧ s.state ≠ .Idle then
    ⟨-1, s, m, []⟩
  else
    let s1 : MpipeStruct :=
      if data_priority ≠ .Ack then
        { s with priority := data_priority, pktbuf := data, pktlen := data_length }
      else s
    let s2 : MpipeStruct := { s1 with state := .TxWait }
    let m1 : Mem := m.write (data + data_length) (s.sequence / 256)
    let m2 : Mem := m1.write (data + data_length + 1) (s.sequence % 256)
    let crcval : Nat := platform_crc_block crc m2 data (data_length + 2)
    let m3 : Mem := m2.write (data + data_length + 2) (crcval / 256)
    let m4 : Mem := m3.write (data + data_length + 3) (crcval % 256)
    ⟨(data_length : Int) + 4, s2, m4,
      [.dmaOff, .dmaTxConfig data (data_length + 4), .uartOpen, .txTrigger]⟩

/-- `mpipe_rxndef(data, blocking, data_priority)`: for a non-`Ack` kind,
rejects with -1 while `mpipe.state != MPIPE_Idle`, else records
`priority`, `pktbuf = data`, `pktlen = 6`; then (always) sets
`state = MPIPE_Idle` (arming is fire-and-forget), disables the DMA and arms
a 10-byte bulk receive into `data`, opening the I2C. -/
def mpipe_rxndef (data : Nat) (blocking : Bool)
    (data_priority : MpipePriority) (s : MpipeStruct) (m : Mem) : OpResult :=
  let data_length : Nat := 10
  if data_priority ≠ .Ack ∧ s.state ≠ .Idle then
    ⟨-1, s, m, []⟩
  else
    let s1 : MpipeStruct :=
      if data_priority ≠ .Ack then
        { s with priority := data_priority, pktbuf := data, pktlen := 6 }
      else s
    let s2 : MpipeStruct := { s1 with state := .Idle }
    ⟨0, s2, m, [.dmaOff, .dmaRxConfig data data_length, .i2cOpen, .i2cClearRxifg]⟩

/-- `sub_rxdone()`: closes the UART, returns to `Idle`, resets priority to
`MPIPE_Low`, fires the receive-complete signal. -/
def sub_rxdone (s : MpipeStruct) : MpipeStruct × List HwEvent :=
  ({ s with state := .Idle, priority := .Low },
   [.uartClose, .sigRxdone 0])

/-- `sub_txdone()`: closes the UART, increments `sequence.ushort` (16-bit
wraparound), returns to `Idle`, resets priority, fires the send-complete
signal. -/
def sub_txdone (s : MpipeStruct) : MpipeStruct × List HwEvent :=
  ({ s with
      sequence := (s.sequence + 1) % 65536
      state := .Idle
      priority := .Low },
   [.uartClose, .sigTxdone 0])

/-- Shared body of the `MPIPE_Idle` fallthrough and `MPIPE_RxHeader` cases
of `mpipe_isr`: sets `state = MPIPE_RxPayload`, grows `pktlen` by
`pktbuf[2] + MPIPE_FOOTERBYTES`, and arms a bulk receive of
`pktlen - 6` bytes at `pktbuf + 6`. -/
def rxHeaderBody (s : MpipeStruct) (m : Mem) : IsrOut :=
  let s1 : MpipeStruct :=
    { s with state := .RxPayload, pktlen := s.pktlen + m.read (s.pktbuf + 2) + 4 }
  ⟨s1, m, [.dmaRxConfig (s1.pktbuf + 6) (s1.pktlen - 6)]⟩

/-- `mpipe_isr()`: the bulk-transfer-complete dispatch, by current state.
Translated case by case from the `switch (mpipe.state)` in the source; the
`MPIPE_Idle` case fires the receive-detected signal and falls through into
the `MPIPE_RxHeader` case. -/
def mpipe_isr (crc : List Nat → Nat) (s : MpipeStruct) (m : Mem) : IsrOut :=
  match s.state with
  | .Idle =>
      let r := rxHeaderBody s m
      ⟨r.mp, r.mem, .sigRxdetect 0 :: r.ev⟩
  | .RxHeader => rxHeaderBody s m
  | .RxPayload =>
      if s.priority ≠ .Broadcast then
        -- Copy RX'ed seq (at pktbuf[pktlen-4], pktbuf[pktlen-3]) into sequence
        let upper : Nat := m.read (s.pktbuf + s.pktlen - 4)
        let lower : Nat := m.read (s.pktbuf + s.pktlen - 3)
        let s1 : MpipeStruct := { s with sequence := upper * 256 + lower }
        let m1 : Mem := m.write s.ackbuf_addr 0xDD
        let m2 : Mem := m1.write (s.ackbuf_addr + 1) 0
        let m3 : Mem := m2.write (s.ackbuf_addr + 2) 0
        let m4 : Mem := m3.write (s.ackbuf_addr + 3) 2
        let m5 : Mem := m4.write (s.ackbuf_addr + 4) 0
        let m6 : Mem := m5.write (s.ackbuf_addr + 5)
          (if platform_crc_block crc m5 s.pktbuf s.pktlen ≠ 0 then 0x7F else 0)
        let r := mpipe_txndef crc s1.ackbuf_addr false .Ack s1 m6
        ⟨{ r.mp with state := .TxAckWait }, r.mem, r.ev⟩
      else
        -- Broadcast, so no ACK
        let p := sub_rxdone s
        ⟨p.1, m, p.2⟩
  | .TxAckWait => ⟨s, m, [.setIE 1]⟩
  | .TxAckDone =>
      if m.read (s.ackbuf_addr + 5) ≠ 0 then
        -- TX'ed a NACK: re-arm a receive for the retransmission
        let r := mpipe_rxndef s.pktbuf false s.priority s m
        ⟨{ r.mp with state := .RxHeader }, r.mem, .setIE 0 :: r.ev⟩
      else
        let p := sub_rxdone s
        ⟨p.1, m, .setIE 0 :: p.2⟩
  | .TxWait => ⟨s, m, [.setIE 1]⟩
  | .TxDone =>
      if s.priority ≠ .Broadcast then
        let r := mpipe_rxndef s.ackbuf_addr false .Ack s m
        ⟨{ r.mp with state := .RxAck }, r.mem, .setIE 0 :: r.ev⟩
      else
        -- Broadcast, so no ACK
        let p := sub_txdone s
        ⟨p.1, m, .setIE 0 :: p.2⟩
  | .RxAck =>
      if platform_crc_block crc m s.ackbuf_addr 10 ≠ 0 then
        -- RX'ed NACK: retransmit the pending frame
        let r := mpipe_txndef crc s.pktbuf false s.priority s m
        ⟨r.mp, r.mem, r.ev⟩
      else
        -- RX'ed ACK
        let p := sub_txdone s
        ⟨p.1, m, p.2⟩

/-- Modelled from the spec: the `mpipe_state` enumeration order used by
`mpipe.state++` lives in `mpipe.h`, which is not among the sources; the
spec fixes the transfer-finished interrupt's effect as `TxWait → TxDone`
and `TxAckWait → TxAckDone`, any other state dispatching `mpipe_isr`. -/
def mpipe_uart_isr (crc : List Nat → Nat) (s : MpipeStruct) (m : Mem) : IsrOut :=
  if s.state = .TxWait then ⟨{ s with state := .TxDone }, m, []⟩
  else if s.state = .TxAckWait then ⟨{ s with state := .TxAckDone }, m, []⟩
  else mpipe_isr crc s m

/-! ## Concrete fixtures (used by witnesses and counterexamples) -/

/-- Checksum collaborator that reports every block as verified. -/
def crc0 : List Nat → Nat := fun _ => 0

/-- Checksum collaborator that reports every block as corrupted. -/
def crc1 : List Nat → Nat := fun _ => 1

/-- All-zero memory. -/
def mem0 : Mem := fun _ => 0

/-- An idle session about to send: ack buffer at 200, sequence 258 (0x0102). -/
def sIdle : MpipeStruct :=
  ⟨200, .Low, .Idle, 258, 100, 12, .signull, .signull, .signull⟩

/-- A sender session awaiting its acknowledgment: a 12-byte data frame at 100
is pending and a 10-byte ack has been received into `ackbuf` at 200. -/
def sRxAck : MpipeStruct :=
  ⟨200, .Low, .RxAck, 7, 100, 12, .signull, .signull, .signull⟩

/-- A receiver session that has just finished sending an acknowledgment for
a 16-byte frame received into the buffer at 100. -/
def sTxAckDone : MpipeStruct :=
  ⟨200, .Low, .TxAckDone, 7, 100, 16, .signull, .signull, .signull⟩

/-- A receiver session holding a complete 10-byte (zero-payload) frame at 100. -/
def sRxPayload : MpipeStruct :=
  ⟨200, .Low, .RxPayload, 1, 100, 10, .signull, .signull, .signull⟩

/-- A receiver session that has captured the 10-byte prefix (`pktlen = 6`). -/
def sRxHeader : MpipeStruct :=
  ⟨200, .Low, .RxHeader, 0, 100, 6, .signull, .signull, .signull⟩

/-- A broadcast sender whose DMA send has finished (`sequence` at the wrap). -/
def sTxDoneB : MpipeStruct :=
  ⟨200, .Broadcast, .TxDone, 65535, 100, 12, .signull, .signull, .signull⟩

/-- A session as left by C static zero-initialization of `sequence`, with
junk in every field `mpipe_init` is supposed to reset. -/
def sBoot : MpipeStruct :=
  ⟨0, .Broadcast, .RxAck, 0, 0, 0, .custom 3, .custom 4, .custom 5⟩

/-- Memory for `sIdle`: payload length 2 at `data[2]` of the frame at 100. -/
def mC4 : Mem := mem0.write 102 2

/-- Memory for `sRxPayload`: footer sequence bytes 3, 9 at offsets 6, 7 of
the 10-byte frame at 100. -/
def mSeq39 : Mem := (mem0.write 106 3).write 107 9

/-- Memory for `sTxAckDone`: the acknowledgment just sent was a NACK
(status byte `ackbuf[5]` at address 205 is 0x7F). -/
def mNack : Mem := mem0.write 205 0x7F

/-! ## Memory lemmas -/

theorem Mem.read_write_self (m : Mem) (a v : Nat) : (m.write a v).read a = v % 256 := by
  simp [Mem.read, Mem.write]

theorem Mem.read_write_ne (m : Mem) (a b v : Nat) (h : b ≠ a) :
    (m.write a v).read b = m.read b := by
  simp [Mem.read, Mem.write, h]

theorem readBytes_write_out (m : Mem) (a v n b : Nat) (h : b + n ≤ a ∨ a < b) :
    readBytes (m.write a v) b n = readBytes m b n := by
  induction n generalizing b with
  | zero => rfl
  | succ k ih =>
      have hb : b ≠ a := by omega
      simp [readBytes, Mem.read_write_ne m a b v hb, ih (b + 1) (by omega)]

/-- The two checksum-footer stores of `mpipe_txndef` lie beyond
`data[0 .. data_length+2)`, so the checksum of the final buffer over that
range equals the checksum the source computed over the sequence-extended
buffer. -/
theorem mpipe_txndef_mem_crc (crc : List Nat → Nat) (data : Nat) (blocking : Bool)
    (p : MpipePriority) (s : MpipeStruct) (m : Mem)
    (h : ¬(p ≠ MpipePriority.Ack ∧ s.state ≠ MpipeState.Idle)) :
    platform_crc_block crc (mpipe_txndef crc data blocking p s m).mem data
        (m.read (data + 2) + 6 + 2)
      = platform_crc_block crc
          ((m.write (data + (m.read (data + 2) + 6)) (s.sequence / 256)).write
            (data + (m.read (data + 2) + 6) + 1) (s.sequence % 256)) data
          (m.read (data + 2) + 6 + 2) := by
  simp only [mpipe_txndef, if_neg h]
  unfold platform_crc_block
  rw [readBytes_write_out, readBytes_write_out]
  · left; omega
  · left; omega

/-- The five acknowledgment-header stores land in the ack buffer, so when
the ack buffer and the packet buffer are disjoint they do not alter the
checksum of the received frame. -/
theorem crc_ackwrites_out (crc : List Nat → Nat) (s : MpipeStruct) (m : Mem)
    (hdisj : s.pktbuf + s.pktlen ≤ s.ackbuf_addr ∨ s.ackbuf_addr + 10 ≤ s.pktbuf) :
    platform_crc_block crc
        (((((m.write s.ackbuf_addr 0xDD).write (s.ackbuf_addr + 1) 0).write
            (s.ackbuf_addr + 2) 0).write (s.ackbuf_addr + 3) 2).write
            (s.ackbuf_addr + 4) 0) s.pktbuf s.pktlen
      = platform_crc_block crc m s.pktbuf s.pktlen := by
  unfold platform_crc_block
  rw [readBytes_write_out, readBytes_write_out, readBytes_write_out,
      readBytes_write_out, readBytes_write_out] <;> omega

theorem mpipe_txndef_sequence (crc : List Nat → Nat) (data : Nat) (b : Bool)
    (p : MpipePriority) (s : MpipeStruct) (m : Mem) :
    (mpipe_txndef crc data b p s m).mp.sequence = s.sequence := by
  unfold mpipe_txndef
  split_ifs <;> rfl

theorem mpipe_rxndef_sequence (data : Nat) (b : Bool)
    (p : MpipePriority) (s : MpipeStruct) (m : Mem) :
    (mpipe_rxndef data b p s m).mp.sequence = s.sequence := by
  unfold mpipe_rxndef
  split_ifs <;> rfl

/-! ## Claims -/

/-- Claim C1 (code bug): the spec says a corrupted acknowledgment
(`checksum(ack_buffer) != 0`) in state `RxAck` makes the sender retransmit
the pending data frame and return to a send-wait posture.  In the code the
nested `mpipe_txndef(mpipe.pktbuf, False, mpipe.priority)` carries a data
priority, so it is rejected by its own busy check (`state == RxAck != Idle`,
return -1, ignored): at this concrete failing input the dispatch arms no
transmission at all (empty hardware-event trace), changes no memory, and
leaves the session — state still `RxAck`, sequence unchanged — exactly as
it was. -/
theorem claim_C1_rxack_retransmit_blocked :
    platform_crc_block crc1 mem0 sRxAck.ackbuf_addr 10 ≠ 0 ∧
    (mpipe_isr crc1 sRxAck mem0).mp = sRxAck ∧
    (mpipe_isr crc1 sRxAck mem0).mem = mem0 ∧
    (mpipe_isr crc1 sRxAck mem0).ev = [] :=
  ⟨by decide, by decide, rfl, by decide⟩

/-- Claim C2 (code bug): after sending a NACK (`ackbuf[5] != 0`), the
`TxAckDone` dispatch is supposed to re-arm a bulk receive into the pending
buffer.  The nested `mpipe_rxndef(mpipe.pktbuf, False, mpipe.priority)`
carries a data priority and is rejected by its own busy check
(`state == TxAckDone != Idle`, return -1, ignored): at this concrete
failing input the only hardware action is disabling the send interrupt —
no `dmaRxConfig` is issued — although the state is still forced to
`RxHeader`. -/
theorem claim_C2_nack_rearm_blocked :
    mNack.read (sTxAckDone.ackbuf_addr + 5) ≠ 0 ∧
    (mpipe_isr crc0 sTxAckDone mNack).mp = { sTxAckDone with state := .RxHeader } ∧
    (mpipe_isr crc0 sTxAckDone mNack).ev = [.setIE 0] :=
  ⟨by decide, by decide, by decide⟩

/-- Claim C3: a send with a data (non-acknowledgment) kind while the session
state is not `Idle` fails synchronously with the Busy result (-1) and leaves
the entire session (state, pending buffer, pending length, priority,
sequence), the memory and the hardware untouched. -/
theorem claim_C3_busy_data_send_rejected (crc : List Nat → Nat) (data : Nat)
    (blocking : Bool) (p : MpipePriority) (s : MpipeStruct) (m : Mem)
    (hp : p ≠ .Ack) (hs : s.state ≠ .Idle) :
    (mpipe_txndef crc data blocking p s m).ret = -1 ∧
    (mpipe_txndef crc data blocking p s m).mp = s ∧
    (mpipe_txndef crc data blocking p s m).mem = m ∧
    (mpipe_txndef crc data blocking p s m).ev = [] := by
  simp [mpipe_txndef, hp, hs]

/-- Claim C3 witness: a data send in state `RxAck` is rejected unchanged. -/
theorem claim_C3_witness :
    MpipePriority.Low ≠ MpipePriority.Ack ∧ sRxAck.state ≠ MpipeState.Idle ∧
    ((mpipe_txndef crc1 100 false .Low sRxAck mem0).ret = -1 ∧
     (mpipe_txndef crc1 100 false .Low sRxAck mem0).mp = sRxAck ∧
     (mpipe_txndef crc1 100 false .Low sRxAck mem0).mem = mem0 ∧
     (mpipe_txndef crc1 100 false .Low sRxAck mem0).ev = []) :=
  ⟨by decide, by decide,
   claim_C3_busy_data_send_rejected crc1 100 false .Low sRxAck mem0 (by decide) (by decide)⟩

/-- Claim C4: a send with a data kind while the session is `Idle` succeeds
(returns `data_length + 4`, never -1), records the pending buffer, its
length `data[2] + 6` and the priority, moves to `TxWait`, leaves the first
`data[2] + 6` bytes of the caller's buffer unchanged, and appends at their
end the 2-byte sequence (high then low) followed by the 2-byte checksum
computed over header + payload + sequence as they lie in the final buffer. -/
theorem claim_C4_idle_data_send (crc : List Nat → Nat) (data : Nat) (blocking : Bool)
    (p : MpipePriority) (s : MpipeStruct) (m : Mem)
    (hp : p ≠ .Ack) (hs : s.state = .Idle) (hseq : s.sequence < 65536) :
    (mpipe_txndef crc data blocking p s m).ret = (m.read (data + 2) + 6 : Int) + 4 ∧
    (mpipe_txndef crc data blocking p s m).mp.pktbuf = data ∧
    (mpipe_txndef crc data blocking p s m).mp.pktlen = m.read (data + 2) + 6 ∧
    (mpipe_txndef crc data blocking p s m).mp.priority = p ∧
    (mpipe_txndef crc data blocking p s m).mp.state = .TxWait ∧
    (∀ i, i < m.read (data + 2) + 6 →
      (mpipe_txndef crc data blocking p s m).mem.read (data + i) = m.read (data + i)) ∧
    (mpipe_txndef crc data blocking p s m).mem.read (data + (m.read (data + 2) + 6))
      = s.sequence / 256 ∧
    (mpipe_txndef crc data blocking p s m).mem.read (data + (m.read (data + 2) + 6) + 1)
      = s.sequence % 256 ∧
    (mpipe_txndef crc data blocking p s m).mem.read (data + (m.read (data + 2) + 6) + 2)
      = platform_crc_block crc (mpipe_txndef crc data blocking p s m).mem data
          (m.read (data + 2) + 6 + 2) / 256 ∧
    (mpipe_txndef crc data blocking p s m).mem.read (data + (m.read (data + 2) + 6) + 3)
      = platform_crc_block crc (mpipe_txndef crc data blocking p s m).mem data
          (m.read (data + 2) + 6 + 2) % 256 := by
  refine ⟨?_, ?_, ?_, ?_, ?_, ?_, ?_, ?_, ?_, ?_⟩
  · simp [mpipe_txndef, hp, hs]
  · simp [mpipe_txndef, hp, hs]
  · simp [mpipe_txndef, hp, hs]
  · simp [mpipe_txndef, hp, hs]
  · simp [mpipe_txndef, hp, hs]
  · intro i hi
    simp only [Mem.read] at hi
    simp [mpipe_txndef, hp, hs, Mem.read, Mem.write]
    rw [if_neg (by omega), if_neg (by omega), if_neg (by omega), if_neg (by omega)]
  · simp [mpipe_txndef, hp, hs, Mem.read, Mem.write] <;> omega
  · simp [mpipe_txndef, hp, hs, Mem.read, Mem.write] <;> omega
  · rw [mpipe_txndef_mem_crc crc data blocking p s m (by simp [hs])]
    simp [mpipe_txndef, platform_crc_block, hp, hs, Mem.read, Mem.write] <;> omega
  · rw [mpipe_txndef_mem_crc crc data blocking p s m (by simp [hs])]
    simp [mpipe_txndef, platform_crc_block, hp, hs, Mem.read, Mem.write] <;> omega

/-- Claim C4 witness: sending the frame at 100 (payload length 2) from the
idle session records it, moves to `TxWait`, and writes the sequence high
byte at the footer start. -/
theorem claim_C4_witness :
    MpipePriority.Low ≠ MpipePriority.Ack ∧ sIdle.state = MpipeState.Idle ∧
    sIdle.sequence < 65536 ∧
    (mpipe_txndef crc1 100 false .Low sIdle mC4).mp.state = .TxWait ∧
    (mpipe_txndef crc1 100 false .Low sIdle mC4).mem.read (100 + (mC4.read (100 + 2) + 6))
      = sIdle.sequence / 256 :=
  ⟨by decide, rfl, by decide,
   (claim_C4_idle_data_send crc1 100 false .Low sIdle mC4 (by decide) rfl
     (by decide)).2.2.2.2.1,
   (claim_C4_idle_data_send crc1 100 false .Low sIdle mC4 (by decide) rfl
     (by decide)).2.2.2.2.2.2.1⟩

/-- Claim C5: the `RxPayload` dispatch with a non-broadcast priority (with
the session ack buffer disjoint from the packet buffer) copies the received
frame's trailing 2-byte sequence into the session sequence, builds the
acknowledgment whose flags byte is 0xDD and whose status byte `ackbuf[5]`
is 0 exactly when the checksum of the received frame is 0 and 0x7F
otherwise, arms the non-blocking 10-byte acknowledgment send, and moves to
`TxAckWait`. -/
theorem claim_C5_rxpayload_ack_build (crc : List Nat → Nat) (s : MpipeStruct) (m : Mem)
    (hst : s.state = .RxPayload) (hpr : s.priority ≠ .Broadcast)
    (hdisj : s.pktbuf + s.pktlen ≤ s.ackbuf_addr ∨ s.ackbuf_addr + 10 ≤ s.pktbuf) :
    (mpipe_isr crc s m).mp.sequence
      = m.read (s.pktbuf + s.pktlen - 4) * 256 + m.read (s.pktbuf + s.pktlen - 3) ∧
    (mpipe_isr crc s m).mem.read s.ackbuf_addr = 0xDD ∧
    (mpipe_isr crc s m).mem.read (s.ackbuf_addr + 5)
      = (if platform_crc_block crc m s.pktbuf s.pktlen ≠ 0 then 0x7F else 0) ∧
    HwEvent.dmaTxConfig s.ackbuf_addr 10 ∈ (mpipe_isr crc s m).ev ∧
    HwEvent.txTrigger ∈ (mpipe_isr crc s m).ev ∧
    (mpipe_isr crc s m).mp.state = .TxAckWait := by
  have hc5 := crc_ackwrites_out crc s m hdisj
  by_cases hz : platform_crc_block crc m s.pktbuf s.pktlen = 0 <;>
    refine ⟨?_, ?_, ?_, ?_, ?_, ?_⟩ <;>
      simp [mpipe_isr, hst, hpr, mpipe_txndef, Mem.read_write_ne, Mem.read_write_self,
            Nat.add_assoc, hc5, hz] <;> omega

/-- Claim C5 witness: a corrupted zero-payload frame (crc ≡ 1) at 100,
footer sequence bytes 3 and 9, makes the receiver emit a NACK (status 0x7F)
and await the acknowledgment send. -/
theorem claim_C5_witness :
    sRxPayload.state = MpipeState.RxPayload ∧
    sRxPayload.priority ≠ MpipePriority.Broadcast ∧
    (sRxPayload.pktbuf + sRxPayload.pktlen ≤ sRxPayload.ackbuf_addr ∨
      sRxPayload.ackbuf_addr + 10 ≤ sRxPayload.pktbuf) ∧
    (mpipe_isr crc1 sRxPayload mSeq39).mem.read (sRxPayload.ackbuf_addr + 5) = 0x7F ∧
    (mpipe_isr crc1 sRxPayload mSeq39).mp.state = .TxAckWait := by
  refine ⟨rfl, by decide, by decide, ?_, ?_⟩
  · have h := (claim_C5_rxpayload_ack_build crc1 sRxPayload mSeq39 rfl (by decide)
      (by decide)).2.2.1
    rw [if_pos (by decide)] at h
    exact h
  · exact (claim_C5_rxpayload_ack_build crc1 sRxPayload mSeq39 rfl (by decide)
      (by decide)).2.2.2.2.2

/-- Claim C6: the `RxHeader` dispatch (also reached by the fallthrough from
`Idle`) run with the 10-byte prefix captured (`pktlen = 6` as recorded by
`mpipe_rxndef`) reads the payload length at offset 2, sets the recorded
total length to `6 + payload_length + 4`, arms a bulk receive of exactly
`payload_length + 4` further bytes at offset 6 of the same buffer, and
moves to `RxPayload`.  The request is unconditional, so for a zero-payload
frame it re-reads 4 bytes that already lie inside the 10-byte prefix (the
witness below exercises exactly that case). -/
theorem claim_C6_rxheader_remainder (crc : List Nat → Nat) (s : MpipeStruct) (m : Mem)
    (hst : s.state = .RxHeader ∨ s.state = .Idle) (hlen : s.pktlen = 6) :
    (mpipe_isr crc s m).mp.pktlen = 6 + m.read (s.pktbuf + 2) + 4 ∧
    (mpipe_isr crc s m).mp.state = .RxPayload ∧
    HwEvent.dmaRxConfig (s.pktbuf + 6) (m.read (s.pktbuf + 2) + 4) ∈ (mpipe_isr crc s m).ev := by
  have harith : 6 + m.read (s.pktbuf + 2) + 4 - 6 = m.read (s.pktbuf + 2) + 4 := by omega
  rcases hst with h | h <;> simp [mpipe_isr, h, rxHeaderBody, hlen, harith]

/-- Claim C6 witness: a zero-payload frame — the dispatch still requests 4
more bytes at offset 6, inside the already-captured 10-byte prefix. -/
theorem claim_C6_witness :
    (sRxHeader.state = MpipeState.RxHeader ∨ sRxHeader.state = MpipeState.Idle) ∧
    sRxHeader.pktlen = 6 ∧ mem0.read (sRxHeader.pktbuf + 2) = 0 ∧
    (mpipe_isr crc0 sRxHeader mem0).mp.pktlen = 6 + mem0.read (sRxHeader.pktbuf + 2) + 4 ∧
    HwEvent.dmaRxConfig (sRxHeader.pktbuf + 6) (mem0.read (sRxHeader.pktbuf + 2) + 4)
      ∈ (mpipe_isr crc0 sRxHeader mem0).ev :=
  ⟨Or.inl rfl, rfl, by decide,
   (claim_C6_rxheader_remainder crc0 sRxHeader mem0 (Or.inl rfl) rfl).1,
   (claim_C6_rxheader_remainder crc0 sRxHeader mem0 (Or.inl rfl) rfl).2.2⟩

/-- Claim C7 counterexample: "never decremented by any operation" fails —
the non-broadcast `RxPayload` dispatch overwrites the session sequence with
the received frame's footer sequence, here taking it from 1 down to 0. -/
theorem claim_C7_counterexample :
    sRxPayload.sequence = 1 ∧
    (mpipe_isr crc0 sRxPayload mem0).mp.sequence < sRxPayload.sequence := by decide

/-- Claim C7 (amended): every completed data transmission — the broadcast
`TxDone` completion and the valid-checksum `RxAck` completion — increments
the session sequence by exactly 1 modulo 2^16; receive completions
(broadcast `RxPayload`, `TxAckDone` in both branches) and the send-side
wait states leave it unchanged.  (The original "never decremented by any
operation" is dropped: the non-broadcast `RxPayload` dispatch overwrites
the sequence with the received frame's footer value, which may be smaller.) -/
theorem claim_C7_sequence_increment (crc : List Nat → Nat) (s : MpipeStruct) (m : Mem) :
    (s.state = .TxDone → s.priority = .Broadcast →
      (mpipe_isr crc s m).mp.sequence = (s.sequence + 1) % 65536) ∧
    (s.state = .RxAck → platform_crc_block crc m s.ackbuf_addr 10 = 0 →
      (mpipe_isr crc s m).mp.sequence = (s.sequence + 1) % 65536) ∧
    (s.state = .RxPayload → s.priority = .Broadcast →
      (mpipe_isr crc s m).mp.sequence = s.sequence) ∧
    (s.state = .TxAckDone → (mpipe_isr crc s m).mp.sequence = s.sequence) ∧
    (s.state = .TxDone → s.priority ≠ .Broadcast →
      (mpipe_isr crc s m).mp.sequence = s.sequence) ∧
    ((s.state = .TxWait ∨ s.state = .TxAckWait) →
      (mpipe_isr crc s m).mp.sequence = s.sequence) := by
  refine ⟨?_, ?_, ?_, ?_, ?_, ?_⟩
  · intro h1 h2; simp [mpipe_isr, h1, h2, sub_txdone]
  · intro h1 h2; simp [mpipe_isr, h1, h2, sub_txdone]
  · intro h1 h2; simp [mpipe_isr, h1, h2, sub_rxdone]
  · intro h1
    simp only [mpipe_isr, h1]
    split <;> simp [mpipe_rxndef_sequence, sub_rxdone]
  · intro h1 h2; simp [mpipe_isr, h1, h2, mpipe_rxndef_sequence]
  · intro h1; rcases h1 with h | h <;> simp [mpipe_isr, h]

/-- Claim C7 witness: a broadcast send completion wraps 65535 to 0, and a
valid-acknowledgment completion increments 7 to 8. -/
theorem claim_C7_witness :
    sTxDoneB.state = MpipeState.TxDone ∧ sTxDoneB.priority = MpipePriority.Broadcast ∧
    (mpipe_isr crc0 sTxDoneB mem0).mp.sequence = (sTxDoneB.sequence + 1) % 65536 ∧
    sRxAck.state = MpipeState.RxAck ∧
    platform_crc_block crc0 mem0 sRxAck.ackbuf_addr 10 = 0 ∧
    (mpipe_isr crc0 sRxAck mem0).mp.sequence = (sRxAck.sequence + 1) % 65536 :=
  ⟨rfl, rfl, (claim_C7_sequence_increment crc0 sTxDoneB mem0).1 rfl rfl,
   rfl, by decide, (claim_C7_sequence_increment crc0 sRxAck mem0).2.1 rfl (by decide)⟩

/-- Claim C8: a send or receive with the acknowledgment kind bypasses the
idle busy check — whatever the current state, `mpipe_txndef` returns the
footered length (never -1) and `mpipe_rxndef` returns 0 — and neither call
touches the session's pending buffer, pending length or priority. -/
theorem claim_C8_ack_kind_bypass (crc : List Nat → Nat) (data : Nat) (blocking : Bool)
    (s : MpipeStruct) (m : Mem) :
    (mpipe_txndef crc data blocking .Ack s m).ret ≠ -1 ∧
    (mpipe_txndef crc data blocking .Ack s m).mp.pktbuf = s.pktbuf ∧
    (mpipe_txndef crc data blocking .Ack s m).mp.pktlen = s.pktlen ∧
    (mpipe_txndef crc data blocking .Ack s m).mp.priority = s.priority ∧
    (mpipe_rxndef data blocking .Ack s m).ret = 0 ∧
    (mpipe_rxndef data blocking .Ack s m).mp.pktbuf = s.pktbuf ∧
    (mpipe_rxndef data blocking .Ack s m).mp.pktlen = s.pktlen ∧
    (mpipe_rxndef data blocking .Ack s m).mp.priority = s.priority := by
  refine ⟨?_, ?_, ?_, ?_, ?_, ?_, ?_, ?_⟩ <;>
    simp [mpipe_txndef, mpipe_rxndef] <;> omega

/-- Claim C9: after `mpipe_init` runs at link initialization — on the
statically zero-initialized global, so `sequence = 0` on entry (the source
deliberately omits the store) — the session is `Idle` with `sequence = 0`,
priority `MPIPE_Low`, and all three signal callbacks set to the no-op
`sub_signull`. -/
theorem claim_C9_init_defaults (s : MpipeStruct) (h0 : s.sequence = 0) :
    (mpipe_init s).state = .Idle ∧ (mpipe_init s).sequence = 0 ∧
    (mpipe_init s).priority = .Low ∧
    (mpipe_init s).sig_rxdone = .signull ∧
    (mpipe_init s).sig_txdone = .signull ∧
    (mpipe_init s).sig_rxdetect = .signull := by
  simp [mpipe_init, h0]

/-- Claim C9 witness: initializing the boot-time session resets every field
the claim names. -/
theorem claim_C9_witness :
    sBoot.sequence = 0 ∧
    ((mpipe_init sBoot).state = .Idle ∧ (mpipe_init sBoot).sequence = 0 ∧
     (mpipe_init sBoot).priority = .Low ∧
     (mpipe_init sBoot).sig_rxdone = .signull ∧
     (mpipe_init sBoot).sig_txdone = .signull ∧
     (mpipe_init sBoot).sig_rxdetect = .signull) :=
  ⟨rfl, claim_C9_init_defaults sBoot rfl⟩

/-- Claim C10: for a non-broadcast frame handled in `RxPayload`, the
acknowledgment's own sequence field (bytes 6 and 7 of the ack buffer) ends
up holding exactly the received frame's footer sequence bytes: the session
sequence is overwritten with the received value before `mpipe_txndef`
appends the session sequence to the 6-byte acknowledgment header. -/
theorem claim_C10_ack_carries_received_sequence (crc : List Nat → Nat)
    (s : MpipeStruct) (m : Mem)
    (hst : s.state = .RxPayload) (hpr : s.priority ≠ .Broadcast) :
    (mpipe_isr crc s m).mem.read (s.ackbuf_addr + 6) = m.read (s.pktbuf + s.pktlen - 4) ∧
    (mpipe_isr crc s m).mem.read (s.ackbuf_addr + 7) = m.read (s.pktbuf + s.pktlen - 3) := by
  have hu : m.read (s.pktbuf + s.pktlen - 4) < 256 := by
    simp only [Mem.read]; omega
  have hl : m.read (s.pktbuf + s.pktlen - 3) < 256 := by
    simp only [Mem.read]; omega
  simp [mpipe_isr, hst, hpr, mpipe_txndef, Mem.read, Mem.write]
  constructor <;> omega

/-- Claim C10 witness: footer sequence bytes 3 and 9 of the received frame
reappear as bytes 6 and 7 of the acknowledgment buffer. -/
theorem claim_C10_witness :
    sRxPayload.state = MpipeState.RxPayload ∧
    sRxPayload.priority ≠ MpipePriority.Broadcast ∧
    (mpipe_isr crc1 sRxPayload mSeq39).mem.read (sRxPayload.ackbuf_addr + 6)
      = mSeq39.read (sRxPayload.pktbuf + sRxPayload.pktlen - 4) ∧
    (mpipe_isr crc1 sRxPayload mSeq39).mem.read (sRxPayload.ackbuf_addr + 7)
      = mSeq39.read (sRxPayload.pktbuf + sRxPayload.pktlen - 3) :=
  ⟨rfl, by decide,
   (claim_C10_ack_carries_received_sequence crc1 sRxPayload mSeq39 rfl (by decide)).1,
   (claim_C10_ack_carries_received_sequence crc1 sRxPayload mSeq39 rfl (by decide)).2⟩
